import Mathlib

/-!
Shallow embedding of the cgLogger repository (src/logger.go), a gorm logging
adapter.  The stateful Go code is modelled as pure functions: the dispatcher
state is the structure `customLogger`; a `Trace` call is embedded as a
function producing the ordered list of observable events it performs
(callback invocations and `Printf` calls).  Go `time.Duration` values are
nanosecond integers (`Int`), gorm log levels are the integer constants
Silent = 1, Error = 2, Warn = 3, Info = 4 from gorm.io/gorm/logger, and a Go
`error` is `Option GoError` with the distinguished `ErrRecordNotFound`
sentinel as one constructor.  The float64 `QueryDuration` field
(`float64(elapsed.Nanoseconds())/1e6`) is kept as the raw elapsed-nanosecond
integer, a lossless representation since the division by 1e6 is a fixed
display transformation.
-/

namespace CgLogger

/- Log levels of gorm.io/gorm/logger: `Silent LogLevel = iota + 1`, then
Error, Warn, Info.  The Go type is an int, so we model it as `Int`. -/
namespace lg

def Silent : Int := 1

def Error : Int := 2

def Warn : Int := 3

def Info : Int := 4

end lg

/-- A Go error value.  `recordNotFound` is the package sentinel
`ErrRecordNotFound = errors.New("record not found")`; every other error is
`other msg`.  `errors.Is(err, ErrRecordNotFound)` becomes an equality test
with the sentinel constructor. -/
inductive GoError where
  | recordNotFound
  | other (msg : String)
deriving DecidableEq

/-- The `errors.Is(err, ErrRecordNotFound)` test on a nilable error. -/
def isRecordNotFound : Option GoError → Bool
  | some GoError.recordNotFound => true
  | _ => false

/-- GormInfos from src/logger.go: the data passed to the custom trigger
functions.  `QueryDurationNs` holds the elapsed nanoseconds underlying the
Go float64 millisecond field. -/
structure GormInfos where
  Location : String
  AffectedRows : Int
  QueryDurationNs : Int
  Sql : String
  Err : Option GoError
deriving DecidableEq

/-- Config from src/logger.go.  `SlowThreshold` is a `time.Duration`
(nanoseconds). -/
structure Config where
  SlowThreshold : Int
  Colorful : Bool
  IgnoreRecordNotFoundError : Bool
  LogLevel : Int
deriving DecidableEq

/-- Execution from src/logger.go: the registered trigger callbacks and the
slow-trigger threshold.  Callbacks are modelled by their registration state
(`true` iff the Go field is non-nil); the value a callback receives is
recorded in the event trace, so no further information about the function is
needed to settle the claims. -/
structure Execution where
  always : Bool
  warns : Bool
  slowSqlTrigger : Int
  errors : Bool
  considerRecordNotFoundError : Bool
deriving DecidableEq

/-- customLogger from src/logger.go: embeds Config and Execution (Go struct
embedding becomes Lean structure extension) plus the six format templates
chosen at construction. -/
structure customLogger extends Config, Execution where
  infoStr : String
  warnStr : String
  errStr : String
  traceStr : String
  traceErrStr : String
  traceWarnStr : String
deriving DecidableEq

/-- The row-count argument a trace line passes to `Printf`: the Go code
passes the string `"-"` when `rows == -1` and the integer `rows`
otherwise. -/
inductive RowsVal where
  | dash
  | num (n : Int)
deriving DecidableEq

/-- The `if rows == -1 { "-" } else { rows }` choice made in every format
branch of `Trace`. -/
def rowsVal (rows : Int) : RowsVal :=
  if rows = -1 then RowsVal.dash else RowsVal.num rows

/-- One observable action of a `Trace` call, in order: invoking the always /
slow / error trigger with a `GormInfos` record, or a `Printf` call of one of
the three trace templates.  `printErr` carries the template, call-site
location, the error value, elapsed nanoseconds, the rows argument and the
sql text; `printWarn` carries the formatting threshold whose rendering is
the synthesized message `"SLOW SQL >= <threshold>"`; `printInfo` has no
message argument. -/
inductive Event where
  | callAlways (g : GormInfos)
  | callSlow (g : GormInfos)
  | callError (g : GormInfos)
  | printErr (template : String) (loc : String) (e : GoError)
      (elapsedNs : Int) (rows : RowsVal) (sql : String)
  | printWarn (template : String) (loc : String) (thresholdNs : Int)
      (elapsedNs : Int) (rows : RowsVal) (sql : String)
  | printInfo (template : String) (loc : String)
      (elapsedNs : Int) (rows : RowsVal) (sql : String)
deriving DecidableEq

/-- Whether an event is a `Printf` call (a formatted trace line) rather than
a callback invocation. -/
def Event.isPrint : Event → Bool
  | Event.printErr _ _ _ _ _ _ => true
  | Event.printWarn _ _ _ _ _ _ => true
  | Event.printInfo _ _ _ _ _ => true
  | _ => false

/-- Position of each event kind in the fixed step order of `Trace`:
always trigger, slow trigger, error trigger, formatted line. -/
def Event.rank : Event → Nat
  | Event.callAlways _ => 0
  | Event.callSlow _ => 1
  | Event.callError _ => 2
  | Event.printErr _ _ _ _ _ _ => 3
  | Event.printWarn _ _ _ _ _ _ => 3
  | Event.printInfo _ _ _ _ _ => 3

/-- The rows argument of a print event, if any. -/
def Event.rowsArg : Event → Option RowsVal
  | Event.printErr _ _ _ _ r _ => some r
  | Event.printWarn _ _ _ _ r _ => some r
  | Event.printInfo _ _ _ r _ => some r
  | _ => none

/-- New from src/logger.go: selects the six format templates from the
Colorful flag and builds the logger with zero-valued Execution (all
callbacks nil, slow trigger 0, considerRecordNotFoundError false).  The
writer is not part of the pure state; `Printf` calls appear as events. -/
def New (config : Config) : customLogger :=
  let infoStr := if config.Colorful then
      "\x1b[32m%s\n\x1b[0m\x1b[32m[info] \x1b[0m"
    else "%s\n[info] "
  let warnStr := if config.Colorful then
      "\x1b[34;1m%s\n\x1b[0m\x1b[35m[warn] \x1b[0m"
    else "%s\n[warn] "
  let errStr := if config.Colorful then
      "\x1b[35m%s\n\x1b[0m\x1b[31m[error] \x1b[0m"
    else "%s\n[error] "
  let traceStr := if config.Colorful then
      "\x1b[32m%s\n\x1b[0m\x1b[33m[%.3fms] \x1b[34;1m[rows:%v]\x1b[0m %s"
    else "%s\n[%.3fms] [rows:%v] %s"
  let traceWarnStr := if config.Colorful then
      "\x1b[32m%s \x1b[33m%s\n\x1b[0m\x1b[31;1m[%.3fms] \x1b[33m[rows:%v]\x1b[35m %s\x1b[0m"
    else "%s %s\n[%.3fms] [rows:%v] %s"
  let traceErrStr := if config.Colorful then
      "\x1b[31;1m%s \x1b[35;1m%s\n\x1b[0m\x1b[33m[%.3fms] \x1b[34;1m[rows:%v]\x1b[0m %s"
    else "%s %s\n[%.3fms] [rows:%v] %s"
  { toConfig := config
    toExecution :=
      { always := false, warns := false, slowSqlTrigger := 0,
        errors := false, considerRecordNotFoundError := false }
    infoStr := infoStr
    warnStr := warnStr
    errStr := errStr
    traceStr := traceStr
    traceErrStr := traceErrStr
    traceWarnStr := traceWarnStr }

/-- SetSlowSqlThreshold: sets Config.SlowThreshold on the receiver.  The Go
method mutates in place; the embedding returns the updated state. -/
def customLogger.SetSlowSqlThreshold (l : customLogger) (t : Int) : customLogger :=
  { l with SlowThreshold := t }

/-- LogMode: copies the receiver (`newLogger := *l`) and sets the log level
on the copy, returning the copy. -/
def customLogger.LogMode (l : customLogger) (level : Int) : customLogger :=
  { l with LogLevel := level }

/-- AlwaysTrigger: registers the always callback (sets `l.always = f`). -/
def customLogger.AlwaysTrigger (l : customLogger) : customLogger :=
  { l with always := true }

/-- SlowTrigger: registers the slow callback and sets the slow-trigger
duration (`l.warns = f; l.slowSqlTrigger = duration`). -/
def customLogger.SlowTrigger (l : customLogger) (duration : Int) : customLogger :=
  { l with warns := true, slowSqlTrigger := duration }

/-- ErrorTrigger: registers the error callback (sets `l.errors = f`). -/
def customLogger.ErrorTrigger (l : customLogger) : customLogger :=
  { l with errors := true }

/-- ConsiderNotFound: sets `l.considerRecordNotFoundError = b`. -/
def customLogger.ConsiderNotFound (l : customLogger) (b : Bool) : customLogger :=
  { l with considerRecordNotFoundError := b }

/-- The GormInfos record built by `Trace` from the call-site location, the
forced thunk results, the elapsed time and the error. -/
def mkInfos (loc : String) (elapsed : Int) (sql : String) (rows : Int)
    (err : Option GoError) : GormInfos :=
  { Location := loc, AffectedRows := rows, QueryDurationNs := elapsed,
    Sql := sql, Err := err }

/-- The local `slowSql := elapsed > l.SlowThreshold && l.SlowThreshold != 0`
computed at the top of `Trace`. -/
def slowSqlOf (l : customLogger) (elapsed : Int) : Bool :=
  decide (elapsed > l.SlowThreshold) && decide (l.SlowThreshold ≠ 0)

/-- Condition of the error-callback step of `Trace`:
`err != nil && (!errors.Is(err, ErrRecordNotFound) || l.considerRecordNotFoundError) && l.errors != nil`. -/
def errCallbackCond (l : customLogger) (err : Option GoError) : Bool :=
  err.isSome && (!(isRecordNotFound err) || l.considerRecordNotFoundError) && l.errors

/-- The slow/info fallthrough cases of the format switch in `Trace`, tried
after the error case fails. -/
def warnInfoSection (l : customLogger) (loc : String) (elapsed : Int)
    (sql : String) (rows : Int) (slowSql : Bool) : List Event :=
  if slowSql = true ∧ l.LogLevel ≥ lg.Warn then
    [Event.printWarn l.traceWarnStr loc l.SlowThreshold elapsed (rowsVal rows) sql]
  else if l.LogLevel = lg.Info then
    [Event.printInfo l.traceStr loc elapsed (rowsVal rows) sql]
  else []

/-- The format switch of `Trace` (first match wins): error case, then slow
case, then info case, else nothing. -/
def printSection (l : customLogger) (loc : String) (elapsed : Int)
    (sql : String) (rows : Int) (err : Option GoError) (slowSql : Bool) : List Event :=
  match err with
  | some e =>
    if l.LogLevel ≥ lg.Error ∧ (e ≠ GoError.recordNotFound ∨ l.IgnoreRecordNotFoundError = false) then
      [Event.printErr l.traceErrStr loc e elapsed (rowsVal rows) sql]
    else warnInfoSection l loc elapsed sql rows slowSql
  | none => warnInfoSection l loc elapsed sql rows slowSql

/-- Trace from src/logger.go, as the ordered list of events it performs.
The statement thunk is already forced into `sql` and `rows` (the Go code
calls `fc()` first thing), `elapsed` is the nanoseconds of
`time.Since(begin)`, and `loc` is `utils.FileWithLineNum()`.  Steps in
source order: build the GormInfos record; invoke the always trigger if set;
invoke the slow trigger if `slowSqlTrigger != 0 && elapsed > slowSqlTrigger`
and it is set; invoke the error trigger if its condition holds; return if
`LogLevel <= Silent`; otherwise run the format switch. -/
def customLogger.Trace (l : customLogger) (loc : String) (elapsed : Int)
    (sql : String) (rows : Int) (err : Option GoError) : List Event :=
  let slowSql := slowSqlOf l elapsed
  let g : GormInfos := mkInfos loc elapsed sql rows err
  (if l.always = true then [Event.callAlways g] else [])
    ++ (if l.slowSqlTrigger ≠ 0 ∧ elapsed > l.slowSqlTrigger ∧ l.warns = true then
          [Event.callSlow g] else [])
    ++ (if errCallbackCond l err = true then [Event.callError g] else [])
    ++ (if l.LogLevel ≤ lg.Silent then []
        else printSection l loc elapsed sql rows err slowSql)

/-- Condition of the first case of the format switch in `Trace`:
`err != nil && l.LogLevel >= lg.Error && (!errors.Is(err, ErrRecordNotFound) || !l.IgnoreRecordNotFoundError)`. -/
def errLine (l : customLogger) (err : Option GoError) : Bool :=
  match err with
  | some e =>
    decide (l.LogLevel ≥ lg.Error)
      && (decide (e ≠ GoError.recordNotFound) || !l.IgnoreRecordNotFoundError)
  | none => false

/-- Whether an event is a `Printf` of the error-trace template (the first
case of the format switch). -/
def Event.isErrLine : Event → Bool
  | Event.printErr _ _ _ _ _ _ => true
  | _ => false

/-- The package-level Default logger of src/logger.go: slow threshold 200ms
(200000000 ns), level Warn, colorful, not ignoring record-not-found. -/
def Default : customLogger :=
  New { SlowThreshold := 200000000, Colorful := true,
        IgnoreRecordNotFoundError := false, LogLevel := lg.Warn }

/-- A logger at level Error with an error trigger registered, default
`IgnoreRecordNotFoundError = false` and `considerRecordNotFoundError =
false`; used to evaluate concrete Trace calls. -/
def errLevelLogger : customLogger :=
  (Default.LogMode lg.Error).ErrorTrigger

/-- A logger at level Error with `IgnoreRecordNotFoundError = true` and an
error trigger registered; used to evaluate concrete Trace calls. -/
def ignoringLogger : customLogger :=
  (New { SlowThreshold := 200000000, Colorful := false,
         IgnoreRecordNotFoundError := true, LogLevel := lg.Error }).ErrorTrigger

/-- A silent logger with always and error triggers registered; used to
evaluate concrete Trace calls. -/
def silentLogger : customLogger :=
  ((Default.LogMode lg.Silent).AlwaysTrigger).ErrorTrigger

/-- A logger with a slow trigger registered at 1000 ns; used to evaluate
concrete Trace calls. -/
def slowTrigLogger : customLogger :=
  Default.SlowTrigger 1000

/-- Membership in a conditional singleton list. -/
theorem mem_if_singleton {α : Type} {c : Prop} [Decidable c] {x e : α} :
    (e ∈ (if c then [x] else ([] : List α))) ↔ c ∧ e = x := by
  split <;> simp_all

/-- Membership in a conditionally emptied list. -/
theorem mem_if_nil {α : Type} {c : Prop} [Decidable c] {xs : List α} {e : α} :
    (e ∈ (if c then ([] : List α) else xs)) ↔ ¬c ∧ e ∈ xs := by
  split <;> simp_all

/-- Rank 3 characterizes print events. -/
theorem rank_eq_three_iff_isPrint (e : Event) : e.rank = 3 ↔ e.isPrint = true := by
  cases e <;> simp [Event.rank, Event.isPrint]

/-- Everything the slow/info fallthrough emits is a print event. -/
theorem mem_warnInfoSection_rank {l : customLogger} {loc : String} {elapsed : Int}
    {sql : String} {rows : Int} {slow : Bool} {e : Event}
    (h : e ∈ warnInfoSection l loc elapsed sql rows slow) : e.rank = 3 := by
  unfold warnInfoSection at h
  repeat' split at h
  all_goals simp_all [Event.rank]

/-- Everything the format switch emits is a print event. -/
theorem mem_printSection_rank {l : customLogger} {loc : String} {elapsed : Int}
    {sql : String} {rows : Int} {err : Option GoError} {slow : Bool} {e : Event}
    (h : e ∈ printSection l loc elapsed sql rows err slow) : e.rank = 3 := by
  cases err with
  | none => exact mem_warnInfoSection_rank (by simpa [printSection] using h)
  | some e0 =>
    rw [printSection] at h
    split at h
    · simp_all [Event.rank]
    · exact mem_warnInfoSection_rank h

/-- The slow/info fallthrough emits at most one line. -/
theorem warnInfoSection_length (l : customLogger) (loc : String) (elapsed : Int)
    (sql : String) (rows : Int) (slow : Bool) :
    (warnInfoSection l loc elapsed sql rows slow).length ≤ 1 := by
  unfold warnInfoSection
  repeat' split
  all_goals simp

/-- The format switch emits at most one line. -/
theorem printSection_length (l : customLogger) (loc : String) (elapsed : Int)
    (sql : String) (rows : Int) (err : Option GoError) (slow : Bool) :
    (printSection l loc elapsed sql rows err slow).length ≤ 1 := by
  cases err with
  | none => simpa [printSection] using warnInfoSection_length l loc elapsed sql rows slow
  | some e0 =>
    rw [printSection]
    split
    · simp
    · exact warnInfoSection_length l loc elapsed sql rows slow

/-- The print events of a Trace call are exactly the format-switch output,
guarded by the Silent check. -/
theorem trace_filter_print (l : customLogger) (loc : String) (elapsed : Int)
    (sql : String) (rows : Int) (err : Option GoError) :
    (l.Trace loc elapsed sql rows err).filter Event.isPrint =
      (if l.LogLevel ≤ lg.Silent then []
       else printSection l loc elapsed sql rows err (slowSqlOf l elapsed)) := by
  unfold customLogger.Trace
  simp only [List.filter_append]
  have h1 : List.filter Event.isPrint
      (if l.always = true then [Event.callAlways (mkInfos loc elapsed sql rows err)] else []) = [] := by
    split <;> simp [Event.isPrint]
  have h2 : List.filter Event.isPrint
      (if l.slowSqlTrigger ≠ 0 ∧ elapsed > l.slowSqlTrigger ∧ l.warns = true then
        [Event.callSlow (mkInfos loc elapsed sql rows err)] else []) = [] := by
    split <;> simp [Event.isPrint]
  have h3 : List.filter Event.isPrint
      (if errCallbackCond l err = true then [Event.callError (mkInfos loc elapsed sql rows err)] else []) = [] := by
    split <;> simp [Event.isPrint]
  rw [h1, h2, h3]
  have h4 : List.filter Event.isPrint
      (if l.LogLevel ≤ lg.Silent then []
       else printSection l loc elapsed sql rows err (slowSqlOf l elapsed)) =
      (if l.LogLevel ≤ lg.Silent then []
       else printSection l loc elapsed sql rows err (slowSqlOf l elapsed)) := by
    split
    · simp
    · exact List.filter_eq_self.mpr fun e he =>
        (rank_eq_three_iff_isPrint e).mp (mem_printSection_rank he)
  rw [h4]
  simp

/-- The callback events of a Trace call are exactly the three trigger steps,
independent of the log level. -/
theorem trace_filter_callbacks (l : customLogger) (loc : String) (elapsed : Int)
    (sql : String) (rows : Int) (err : Option GoError) :
    (l.Trace loc elapsed sql rows err).filter (fun e => !e.isPrint) =
      (if l.always = true then [Event.callAlways (mkInfos loc elapsed sql rows err)] else [])
        ++ (if l.slowSqlTrigger ≠ 0 ∧ elapsed > l.slowSqlTrigger ∧ l.warns = true then
              [Event.callSlow (mkInfos loc elapsed sql rows err)] else [])
        ++ (if errCallbackCond l err = true then
              [Event.callError (mkInfos loc elapsed sql rows err)] else []) := by
  unfold customLogger.Trace
  simp only [List.filter_append]
  have h1 : List.filter (fun e => !Event.isPrint e)
      (if l.always = true then [Event.callAlways (mkInfos loc elapsed sql rows err)] else []) =
      (if l.always = true then [Event.callAlways (mkInfos loc elapsed sql rows err)] else []) := by
    split <;> simp [Event.isPrint]
  have h2 : List.filter (fun e => !Event.isPrint e)
      (if l.slowSqlTrigger ≠ 0 ∧ elapsed > l.slowSqlTrigger ∧ l.warns = true then
        [Event.callSlow (mkInfos loc elapsed sql rows err)] else []) =
      (if l.slowSqlTrigger ≠ 0 ∧ elapsed > l.slowSqlTrigger ∧ l.warns = true then
        [Event.callSlow (mkInfos loc elapsed sql rows err)] else []) := by
    split <;> simp [Event.isPrint]
  have h3 : List.filter (fun e => !Event.isPrint e)
      (if errCallbackCond l err = true then
        [Event.callError (mkInfos loc elapsed sql rows err)] else []) =
      (if errCallbackCond l err = true then
        [Event.callError (mkInfos loc elapsed sql rows err)] else []) := by
    split <;> simp [Event.isPrint]
  have h4 : List.filter (fun e => !Event.isPrint e)
      (if l.LogLevel ≤ lg.Silent then []
       else printSection l loc elapsed sql rows err (slowSqlOf l elapsed)) = [] := by
    split
    · simp
    · refine List.filter_eq_nil_iff.mpr fun e he => ?_
      have := (rank_eq_three_iff_isPrint e).mp (mem_printSection_rank he)
      simp [this]
  rw [h1, h2, h3, h4]
  simp

/-- Membership in a Trace event list, decomposed by the four steps. -/
theorem mem_trace_iff (l : customLogger) (loc : String) (elapsed : Int) (sql : String)
    (rows : Int) (err : Option GoError) (e : Event) :
    (e ∈ l.Trace loc elapsed sql rows err) ↔
      ((l.always = true ∧ e = Event.callAlways (mkInfos loc elapsed sql rows err)) ∨
       ((l.slowSqlTrigger ≠ 0 ∧ elapsed > l.slowSqlTrigger ∧ l.warns = true) ∧
          e = Event.callSlow (mkInfos loc elapsed sql rows err)) ∨
       (errCallbackCond l err = true ∧ e = Event.callError (mkInfos loc elapsed sql rows err)) ∨
       (¬(l.LogLevel ≤ lg.Silent) ∧
          e ∈ printSection l loc elapsed sql rows err (slowSqlOf l elapsed))) := by
  unfold customLogger.Trace
  simp only [List.mem_append, mem_if_singleton, mem_if_nil, or_assoc]

/-- The error-trace line never comes out of the slow/info fallthrough. -/
theorem printErr_not_mem_warnInfoSection {l : customLogger} {loc : String}
    {elapsed : Int} {sql : String} {rows : Int} {slow : Bool}
    {t lo : String} {e0 : GoError} {el : Int} {r : RowsVal} {s : String} :
    Event.printErr t lo e0 el r s ∉ warnInfoSection l loc elapsed sql rows slow := by
  intro h
  unfold warnInfoSection at h
  repeat' split at h
  all_goals simp_all

/-- The error-trace line comes out of the format switch exactly under the
first-case condition. -/
theorem printErr_mem_printSection_iff (l : customLogger) (loc : String) (elapsed : Int)
    (sql : String) (rows : Int) (e0 : GoError) (slow : Bool) :
    (Event.printErr l.traceErrStr loc e0 elapsed (rowsVal rows) sql ∈
        printSection l loc elapsed sql rows (some e0) slow) ↔
      (l.LogLevel ≥ lg.Error ∧
        (e0 ≠ GoError.recordNotFound ∨ l.IgnoreRecordNotFoundError = false)) := by
  rw [printSection]
  split
  · simp_all
  · constructor
    · intro h
      exact absurd h printErr_not_mem_warnInfoSection
    · intro h
      simp_all

/-- The warn-trace line comes out of the slow/info fallthrough exactly when
the statement is slow for the formatting threshold and the level admits
warnings. -/
theorem printWarn_mem_warnInfoSection_iff (l : customLogger) (loc : String)
    (elapsed : Int) (sql : String) (rows : Int) (slow : Bool) :
    (Event.printWarn l.traceWarnStr loc l.SlowThreshold elapsed (rowsVal rows) sql ∈
        warnInfoSection l loc elapsed sql rows slow) ↔
      (slow = true ∧ l.LogLevel ≥ lg.Warn) := by
  unfold warnInfoSection
  repeat' split
  all_goals simp_all

/-- The info-trace line comes out of the slow/info fallthrough exactly when
the slow case failed and the level is exactly Info. -/
theorem printInfo_mem_warnInfoSection_iff (l : customLogger) (loc : String)
    (elapsed : Int) (sql : String) (rows : Int) (slow : Bool) :
    (Event.printInfo l.traceStr loc elapsed (rowsVal rows) sql ∈
        warnInfoSection l loc elapsed sql rows slow) ↔
      (¬(slow = true ∧ l.LogLevel ≥ lg.Warn) ∧ l.LogLevel = lg.Info) := by
  unfold warnInfoSection
  repeat' split
  all_goals simp_all

/-- The warn-trace line comes out of the format switch exactly when the
error case fails and the slow case holds. -/
theorem printWarn_mem_printSection_iff (l : customLogger) (loc : String) (elapsed : Int)
    (sql : String) (rows : Int) (err : Option GoError) (slow : Bool) :
    (Event.printWarn l.traceWarnStr loc l.SlowThreshold elapsed (rowsVal rows) sql ∈
        printSection l loc elapsed sql rows err slow) ↔
      (errLine l err = false ∧ slow = true ∧ l.LogLevel ≥ lg.Warn) := by
  cases err with
  | none =>
    rw [printSection]
    simpa [errLine] using printWarn_mem_warnInfoSection_iff l loc elapsed sql rows slow
  | some e0 =>
    rw [printSection]
    split
    · rename_i hcond
      obtain ⟨h1, h2⟩ := hcond
      constructor
      · intro h
        simp at h
      · rintro ⟨hfalse, -, -⟩
        rw [errLine] at hfalse
        rcases h2 with h2 | h2 <;> simp_all
    · rw [printWarn_mem_warnInfoSection_iff l loc elapsed sql rows slow]
      simp_all [errLine]

/-- The info-trace line comes out of the format switch exactly when both the
error and the slow cases fail and the level is exactly Info. -/
theorem printInfo_mem_printSection_iff (l : customLogger) (loc : String) (elapsed : Int)
    (sql : String) (rows : Int) (err : Option GoError) (slow : Bool) :
    (Event.printInfo l.traceStr loc elapsed (rowsVal rows) sql ∈
        printSection l loc elapsed sql rows err slow) ↔
      (errLine l err = false ∧ ¬(slow = true ∧ l.LogLevel ≥ lg.Warn) ∧
        l.LogLevel = lg.Info) := by
  cases err with
  | none =>
    rw [printSection]
    simpa [errLine] using printInfo_mem_warnInfoSection_iff l loc elapsed sql rows slow
  | some e0 =>
    rw [printSection]
    split
    · rename_i hcond
      obtain ⟨h1, h2⟩ := hcond
      constructor
      · intro h
        simp at h
      · rintro ⟨hfalse, -, -⟩
        rw [errLine] at hfalse
        rcases h2 with h2 | h2 <;> simp_all
    · rw [printInfo_mem_warnInfoSection_iff l loc elapsed sql rows slow]
      simp_all [errLine]

/-- An always-trigger invocation never comes out of the format switch. -/
theorem callAlways_not_mem_printSection {l : customLogger} {loc : String}
    {elapsed : Int} {sql : String} {rows : Int} {err : Option GoError} {slow : Bool}
    {g : GormInfos} :
    Event.callAlways g ∉ printSection l loc elapsed sql rows err slow := by
  intro h
  have h3 := mem_printSection_rank h
  simp [Event.rank] at h3

/-- A slow-trigger invocation never comes out of the format switch. -/
theorem callSlow_not_mem_printSection {l : customLogger} {loc : String}
    {elapsed : Int} {sql : String} {rows : Int} {err : Option GoError} {slow : Bool}
    {g : GormInfos} :
    Event.callSlow g ∉ printSection l loc elapsed sql rows err slow := by
  intro h
  have h3 := mem_printSection_rank h
  simp [Event.rank] at h3

/-- An error-trigger invocation never comes out of the format switch. -/
theorem callError_not_mem_printSection {l : customLogger} {loc : String}
    {elapsed : Int} {sql : String} {rows : Int} {err : Option GoError} {slow : Bool}
    {g : GormInfos} :
    Event.callError g ∉ printSection l loc elapsed sql rows err slow := by
  intro h
  have h3 := mem_printSection_rank h
  simp [Event.rank] at h3

/-- The Boolean error-callback condition, spelled out. -/
theorem errCallbackCond_eq_true_iff (l : customLogger) (err : Option GoError) :
    errCallbackCond l err = true ↔
      (err.isSome = true ∧
        (isRecordNotFound err = false ∨ l.considerRecordNotFoundError = true) ∧
        l.errors = true) := by
  simp [errCallbackCond, Bool.and_eq_true, Bool.or_eq_true, Bool.not_eq_true',
    and_assoc]

/-- The slow-trigger invocation happens exactly under the step-5 condition of
Trace. -/
theorem callSlow_mem_trace_iff (l : customLogger) (loc sql : String)
    (elapsed rows : Int) (err : Option GoError) :
    (Event.callSlow (mkInfos loc elapsed sql rows err) ∈ l.Trace loc elapsed sql rows err) ↔
      (l.slowSqlTrigger ≠ 0 ∧ elapsed > l.slowSqlTrigger ∧ l.warns = true) := by
  rw [mem_trace_iff]
  constructor
  · rintro (⟨-, h⟩ | ⟨hc, -⟩ | ⟨-, h⟩ | ⟨-, h⟩)
    · exact absurd h (by simp)
    · exact hc
    · exact absurd h (by simp)
    · exact absurd h callSlow_not_mem_printSection
  · intro h
    exact Or.inr (Or.inl ⟨h, rfl⟩)

/-- The error-trigger invocation happens exactly under the step-6 condition
of Trace. -/
theorem callError_mem_trace_iff (l : customLogger) (loc sql : String)
    (elapsed rows : Int) (err : Option GoError) :
    (Event.callError (mkInfos loc elapsed sql rows err) ∈ l.Trace loc elapsed sql rows err) ↔
      (err.isSome = true ∧
        (isRecordNotFound err = false ∨ l.considerRecordNotFoundError = true) ∧
        l.errors = true) := by
  rw [mem_trace_iff]
  constructor
  · rintro (⟨-, h⟩ | ⟨-, h⟩ | ⟨hc, -⟩ | ⟨-, h⟩)
    · exact absurd h (by simp)
    · exact absurd h (by simp)
    · exact (errCallbackCond_eq_true_iff l err).mp hc
    · exact absurd h callError_not_mem_printSection
  · intro h
    exact Or.inr (Or.inr (Or.inl ⟨(errCallbackCond_eq_true_iff l err).mpr h, rfl⟩))

/-- The always-trigger invocation happens exactly when an always callback is
registered. -/
theorem callAlways_mem_trace_iff (l : customLogger) (loc sql : String)
    (elapsed rows : Int) (err : Option GoError) :
    (Event.callAlways (mkInfos loc elapsed sql rows err) ∈ l.Trace loc elapsed sql rows err) ↔
      l.always = true := by
  rw [mem_trace_iff]
  constructor
  · rintro (⟨ha, -⟩ | ⟨-, h⟩ | ⟨-, h⟩ | ⟨-, h⟩)
    · exact ha
    · exact absurd h (by simp)
    · exact absurd h (by simp)
    · exact absurd h callAlways_not_mem_printSection
  · intro h
    exact Or.inl ⟨h, rfl⟩

/-- C2: In every Trace call, the error callback is invoked if and only if
err is non-nil, (err is not the not-found sentinel OR considerNotFound is
true), and an error callback is registered; in particular, with
considerNotFound true and err equal to the not-found sentinel the error
callback does fire. -/
theorem error_trigger_fires_iff (l : customLogger) (loc sql : String)
    (elapsed rows : Int) (err : Option GoError) :
    (Event.callError (mkInfos loc elapsed sql rows err) ∈ l.Trace loc elapsed sql rows err) ↔
      (err.isSome = true ∧
        (isRecordNotFound err = false ∨ l.considerRecordNotFoundError = true) ∧
        l.errors = true) :=
  callError_mem_trace_iff l loc sql elapsed rows err

/-- C2 witness: with considerNotFound set and a record-not-found error, the
error callback fires in a concrete Trace call. -/
theorem error_trigger_fires_iff_witness :
    Event.callError (mkInfos "L" 5 "q" 0 (some GoError.recordNotFound)) ∈
      (errLevelLogger.ConsiderNotFound true).Trace "L" 5 "q" 0 (some GoError.recordNotFound) :=
  (error_trigger_fires_iff (errLevelLogger.ConsiderNotFound true) "L" "q" 5 0
    (some GoError.recordNotFound)).mpr (by decide)

/-- C8: In every Trace call the slow callback is invoked iff the
slow-trigger duration is nonzero, elapsed exceeds it, and a slow callback is
registered; the condition is unchanged by any SetSlowSqlThreshold call (the
two slow thresholds are independent), and a zero slow-trigger duration
disables the slow callback entirely. -/
theorem slow_trigger_condition (l : customLogger) (loc sql : String)
    (elapsed rows : Int) (err : Option GoError) :
    ((Event.callSlow (mkInfos loc elapsed sql rows err) ∈ l.Trace loc elapsed sql rows err) ↔
      (l.slowSqlTrigger ≠ 0 ∧ elapsed > l.slowSqlTrigger ∧ l.warns = true)) ∧
    (∀ t : Int,
      (Event.callSlow (mkInfos loc elapsed sql rows err) ∈
          (l.SetSlowSqlThreshold t).Trace loc elapsed sql rows err) ↔
        (l.slowSqlTrigger ≠ 0 ∧ elapsed > l.slowSqlTrigger ∧ l.warns = true)) ∧
    (l.slowSqlTrigger = 0 →
      ∀ g : GormInfos, Event.callSlow g ∉ l.Trace loc elapsed sql rows err) := by
  refine ⟨callSlow_mem_trace_iff l loc sql elapsed rows err, fun t => ?_, fun h0 g hmem => ?_⟩
  · exact callSlow_mem_trace_iff (l.SetSlowSqlThreshold t) loc sql elapsed rows err
  · rcases (mem_trace_iff l loc elapsed sql rows err _).mp hmem with
      (⟨-, h⟩ | ⟨hc, -⟩ | ⟨-, h⟩ | ⟨-, h⟩)
    · exact absurd h (by simp)
    · exact hc.1 h0
    · exact absurd h (by simp)
    · exact absurd h callSlow_not_mem_printSection

/-- C8 witness: a concrete slow Trace call fires the slow callback. -/
theorem slow_trigger_condition_witness :
    Event.callSlow (mkInfos "L" 2000 "q" 1 none) ∈ slowTrigLogger.Trace "L" 2000 "q" 1 none :=
  ((slow_trigger_condition slowTrigLogger "L" "q" 2000 1 none).1).mpr (by decide)

/-- C1 counterexample: with considerNotFound = false, a record-not-found
error, level ≥ Error and the default IgnoreRecordNotFoundError = false, Trace
DOES emit an error-trace line, refuting the claim that none is emitted. -/
theorem notfound_line_counterexample :
    errLevelLogger.considerRecordNotFoundError = false ∧
    lg.Error ≤ errLevelLogger.LogLevel ∧
    (errLevelLogger.Trace "L" 100 "q" 0 (some GoError.recordNotFound)).any
      Event.isErrLine = true := by
  decide

/-- Nothing the slow/info fallthrough emits is an error-trace line. -/
theorem warnInfoSection_isErrLine {l : customLogger} {loc : String} {elapsed : Int}
    {sql : String} {rows : Int} {slow : Bool} {e : Event}
    (h : e ∈ warnInfoSection l loc elapsed sql rows slow) : e.isErrLine = false := by
  unfold warnInfoSection at h
  repeat' split at h
  all_goals simp_all [Event.isErrLine]

/-- C1 (amended): with considerNotFound = false and err equal to the
not-found sentinel, the error callback is not invoked; and no error-trace
line is emitted — even at level ≥ Error — provided the construction-time
IgnoreRecordNotFoundError flag is true (line emission for not-found errors
is governed by that flag, not by considerNotFound). -/
theorem notfound_suppression (l : customLogger) (loc sql : String) (elapsed rows : Int)
    (hc : l.considerRecordNotFoundError = false) :
    (∀ g : GormInfos,
      Event.callError g ∉ l.Trace loc elapsed sql rows (some GoError.recordNotFound)) ∧
    (l.IgnoreRecordNotFoundError = true →
      ∀ e ∈ l.Trace loc elapsed sql rows (some GoError.recordNotFound),
        e.isErrLine = false) := by
  constructor
  · intro g h
    rcases (mem_trace_iff l loc elapsed sql rows (some GoError.recordNotFound) _).mp h with
      (⟨-, h1⟩ | ⟨-, h1⟩ | ⟨hcond, -⟩ | ⟨-, h1⟩)
    · simp at h1
    · simp at h1
    · rw [errCallbackCond_eq_true_iff] at hcond
      rcases hcond.2.1 with h2 | h2
      · simp [isRecordNotFound] at h2
      · rw [hc] at h2
        exact Bool.noConfusion h2
    · exact callError_not_mem_printSection h1
  · intro hig e he
    rcases (mem_trace_iff l loc elapsed sql rows (some GoError.recordNotFound) e).mp he with
      (⟨-, h1⟩ | ⟨-, h1⟩ | ⟨-, h1⟩ | ⟨-, h1⟩)
    · subst h1; rfl
    · subst h1; rfl
    · subst h1; rfl
    · rw [printSection] at h1
      split at h1
      · rename_i hcond
        rcases hcond.2 with h2 | h2
        · exact absurd rfl h2
        · rw [hig] at h2
          exact Bool.noConfusion h2
      · exact warnInfoSection_isErrLine h1

/-- C1 witness for the amended claim: a concrete logger with
IgnoreRecordNotFoundError = true and considerNotFound = false neither fires
the error callback nor emits an error-trace line for a not-found error. -/
theorem notfound_suppression_witness :
    (∀ g : GormInfos,
      Event.callError g ∉ ignoringLogger.Trace "L" 7 "q" 2 (some GoError.recordNotFound)) ∧
    (∀ e ∈ ignoringLogger.Trace "L" 7 "q" 2 (some GoError.recordNotFound),
      e.isErrLine = false) :=
  ⟨(notfound_suppression ignoringLogger "L" "q" 7 2 rfl).1,
   (notfound_suppression ignoringLogger "L" "q" 7 2 rfl).2 rfl⟩

/-- C4: at level Silent no formatted line is emitted through the sink, while
the always callback and — under its condition — the error callback still
fire if registered; moreover the callback events of a Trace call are
independent of the log level. -/
theorem silent_no_line (l : customLogger) (loc sql : String) (elapsed rows : Int)
    (err : Option GoError) (h : l.LogLevel = lg.Silent) :
    ((l.Trace loc elapsed sql rows err).all (fun e => !e.isPrint) = true) ∧
    ((Event.callAlways (mkInfos loc elapsed sql rows err) ∈
        l.Trace loc elapsed sql rows err) ↔ l.always = true) ∧
    ((Event.callError (mkInfos loc elapsed sql rows err) ∈
        l.Trace loc elapsed sql rows err) ↔
      (err.isSome = true ∧
        (isRecordNotFound err = false ∨ l.considerRecordNotFoundError = true) ∧
        l.errors = true)) ∧
    (∀ L : Int,
      ((l.LogMode L).Trace loc elapsed sql rows err).filter (fun e => !e.isPrint) =
        (l.Trace loc elapsed sql rows err).filter (fun e => !e.isPrint)) := by
  refine ⟨?_, callAlways_mem_trace_iff l loc sql elapsed rows err,
    callError_mem_trace_iff l loc sql elapsed rows err, fun L => ?_⟩
  · rw [List.all_eq_true]
    intro e he
    rcases (mem_trace_iff l loc elapsed sql rows err e).mp he with
      (⟨-, h1⟩ | ⟨-, h1⟩ | ⟨-, h1⟩ | ⟨hlvl, -⟩)
    · subst h1; rfl
    · subst h1; rfl
    · subst h1; rfl
    · exact absurd (le_of_eq h) hlvl
  · rw [trace_filter_callbacks, trace_filter_callbacks]
    rfl

/-- C4 witness: a concrete silent Trace call emits no line yet fires the
registered always and error callbacks. -/
theorem silent_no_line_witness :
    ((silentLogger.Trace "L" 9 "q" 1 (some (GoError.other "x"))).all
      (fun e => !e.isPrint) = true) ∧
    ((Event.callAlways (mkInfos "L" 9 "q" 1 (some (GoError.other "x"))) ∈
        silentLogger.Trace "L" 9 "q" 1 (some (GoError.other "x"))) ↔
      silentLogger.always = true) ∧
    ((Event.callError (mkInfos "L" 9 "q" 1 (some (GoError.other "x"))) ∈
        silentLogger.Trace "L" 9 "q" 1 (some (GoError.other "x"))) ↔
      ((some (GoError.other "x")).isSome = true ∧
        (isRecordNotFound (some (GoError.other "x")) = false ∨
          silentLogger.considerRecordNotFoundError = true) ∧
        silentLogger.errors = true)) ∧
    (∀ L : Int,
      ((silentLogger.LogMode L).Trace "L" 9 "q" 1 (some (GoError.other "x"))).filter
          (fun e => !e.isPrint) =
        (silentLogger.Trace "L" 9 "q" 1 (some (GoError.other "x"))).filter
          (fun e => !e.isPrint)) :=
  silent_no_line silentLogger "L" "q" 9 1 (some (GoError.other "x")) rfl

/-- C9: whether Trace emits an error-trace line for a not-found error is
governed solely by the construction-time IgnoreRecordNotFoundError flag:
with that flag false and level ≥ Error the line is emitted for any
considerNotFound setting, and ConsiderNotFound leaves the print events of
Trace unchanged. -/
theorem notfound_line_depends_on_ignore_flag (l : customLogger) (loc sql : String)
    (elapsed rows : Int)
    (h1 : l.IgnoreRecordNotFoundError = false) (h2 : lg.Error ≤ l.LogLevel) :
    (Event.printErr l.traceErrStr loc GoError.recordNotFound elapsed (rowsVal rows) sql ∈
      l.Trace loc elapsed sql rows (some GoError.recordNotFound)) ∧
    (∀ b : Bool,
      ((l.ConsiderNotFound b).Trace loc elapsed sql rows
          (some GoError.recordNotFound)).filter Event.isPrint =
        (l.Trace loc elapsed sql rows (some GoError.recordNotFound)).filter
          Event.isPrint) := by
  constructor
  · rw [mem_trace_iff]
    refine Or.inr (Or.inr (Or.inr ⟨?_, ?_⟩))
    · rw [lg.Silent]
      rw [lg.Error] at h2
      omega
    · exact (printErr_mem_printSection_iff l loc elapsed sql rows GoError.recordNotFound
        (slowSqlOf l elapsed)).mpr ⟨h2, Or.inr h1⟩
  · intro b
    rw [trace_filter_print, trace_filter_print]
    rfl

/-- C9 witness: a concrete not-ignoring logger at level Error emits the
error-trace line for a not-found error. -/
theorem notfound_line_depends_on_ignore_flag_witness :
    Event.printErr errLevelLogger.traceErrStr "L" GoError.recordNotFound 3 (rowsVal 0) "q" ∈
      errLevelLogger.Trace "L" 3 "q" 0 (some GoError.recordNotFound) :=
  (notfound_line_depends_on_ignore_flag errLevelLogger "L" "q" 3 0 rfl (by decide)).1

/-- Lists of at most one element are vacuously pairwise. -/
theorem pairwise_of_length_le_one {α : Type} {R : α → α → Prop} :
    ∀ {xs : List α}, xs.length ≤ 1 → xs.Pairwise R
  | [], _ => List.Pairwise.nil
  | [_], _ => by simp
  | _ :: _ :: _, h => by simp at h

/-- C3: in every Trace call the registered callbacks fire in the fixed order
always, then slow, then error, and every callback invocation precedes any
formatted line (event ranks strictly increase along the list); the trigger
registration calls commute pairwise, so this order is independent of the
order in which triggers were registered. -/
theorem trace_event_order (l : customLogger) (loc sql : String) (elapsed rows : Int)
    (err : Option GoError) :
    ((l.Trace loc elapsed sql rows err).Pairwise (fun a b => a.rank < b.rank)) ∧
    (l.AlwaysTrigger.ErrorTrigger = l.ErrorTrigger.AlwaysTrigger) ∧
    (∀ d : Int, (l.SlowTrigger d).ErrorTrigger = l.ErrorTrigger.SlowTrigger d) ∧
    (∀ d : Int, l.AlwaysTrigger.SlowTrigger d = (l.SlowTrigger d).AlwaysTrigger) := by
  refine ⟨?_, rfl, fun d => rfl, fun d => rfl⟩
  simp only [customLogger.Trace]
  have hs1 : ∀ e ∈ (if l.always = true then
      [Event.callAlways (mkInfos loc elapsed sql rows err)] else []), Event.rank e = 0 := by
    intro e he
    rw [mem_if_singleton] at he
    rw [he.2]
    rfl
  have hs2 : ∀ e ∈ (if l.slowSqlTrigger ≠ 0 ∧ elapsed > l.slowSqlTrigger ∧ l.warns = true then
      [Event.callSlow (mkInfos loc elapsed sql rows err)] else []), Event.rank e = 1 := by
    intro e he
    rw [mem_if_singleton] at he
    rw [he.2]
    rfl
  have hs3 : ∀ e ∈ (if errCallbackCond l err = true then
      [Event.callError (mkInfos loc elapsed sql rows err)] else []), Event.rank e = 2 := by
    intro e he
    rw [mem_if_singleton] at he
    rw [he.2]
    rfl
  have hs4 : ∀ e ∈ (if l.LogLevel ≤ lg.Silent then []
      else printSection l loc elapsed sql rows err (slowSqlOf l elapsed)),
      Event.rank e = 3 := by
    intro e he
    rw [mem_if_nil] at he
    exact mem_printSection_rank he.2
  have p1 : (if l.always = true then
      [Event.callAlways (mkInfos loc elapsed sql rows err)] else []).Pairwise
        (fun a b => Event.rank a < Event.rank b) := by
    split <;> simp
  have p2 : (if l.slowSqlTrigger ≠ 0 ∧ elapsed > l.slowSqlTrigger ∧ l.warns = true then
      [Event.callSlow (mkInfos loc elapsed sql rows err)] else []).Pairwise
        (fun a b => Event.rank a < Event.rank b) := by
    split <;> simp
  have p3 : (if errCallbackCond l err = true then
      [Event.callError (mkInfos loc elapsed sql rows err)] else []).Pairwise
        (fun a b => Event.rank a < Event.rank b) := by
    split <;> simp
  have p4 : (if l.LogLevel ≤ lg.Silent then []
      else printSection l loc elapsed sql rows err (slowSqlOf l elapsed)).Pairwise
        (fun a b => Event.rank a < Event.rank b) := by
    split
    · simp
    · exact pairwise_of_length_le_one
        (printSection_length l loc elapsed sql rows err (slowSqlOf l elapsed))
  refine List.pairwise_append.mpr ⟨List.pairwise_append.mpr
    ⟨List.pairwise_append.mpr ⟨p1, p2, ?_⟩, p3, ?_⟩, p4, ?_⟩
  · intro a ha b hb
    rw [hs1 a ha, hs2 b hb]
    omega
  · intro a ha b hb
    rcases List.mem_append.mp ha with ha | ha
    · rw [hs1 a ha, hs3 b hb]
      omega
    · rw [hs2 a ha, hs3 b hb]
      omega
  · intro a ha b hb
    rcases List.mem_append.mp ha with ha | ha
    · rcases List.mem_append.mp ha with ha | ha
      · rw [hs1 a ha, hs4 b hb]
        omega
      · rw [hs2 a ha, hs4 b hb]
        omega
    · rw [hs3 a ha, hs4 b hb]
      omega

/-- C6: LogMode returns a new dispatcher identical to the receiver except
for the log level: the level of the result is the requested one, every other
field (config, triggers, templates) is carried over as-is, and restoring the
original level yields the receiver back exactly — so the receiver itself is
unchanged and Trace calls on it keep honoring its original level. -/
theorem logmode_copy_on_write (l : customLogger) (L : Int) :
    ((l.LogMode L).LogLevel = L) ∧
    ((l.LogMode L).SlowThreshold = l.SlowThreshold) ∧
    ((l.LogMode L).Colorful = l.Colorful) ∧
    ((l.LogMode L).IgnoreRecordNotFoundError = l.IgnoreRecordNotFoundError) ∧
    ((l.LogMode L).toExecution = l.toExecution) ∧
    ((l.LogMode L).infoStr = l.infoStr) ∧
    ((l.LogMode L).warnStr = l.warnStr) ∧
    ((l.LogMode L).errStr = l.errStr) ∧
    ((l.LogMode L).traceStr = l.traceStr) ∧
    ((l.LogMode L).traceErrStr = l.traceErrStr) ∧
    ((l.LogMode L).traceWarnStr = l.traceWarnStr) ∧
    ((l.LogMode L).LogMode l.LogLevel = l) :=
  ⟨rfl, rfl, rfl, rfl, rfl, rfl, rfl, rfl, rfl, rfl, rfl, rfl⟩

/-- Every line the slow/info fallthrough emits carries the row argument
computed from the statement's row count. -/
theorem mem_warnInfoSection_rowsArg {l : customLogger} {loc : String} {elapsed : Int}
    {sql : String} {rows : Int} {slow : Bool} {e : Event}
    (h : e ∈ warnInfoSection l loc elapsed sql rows slow) :
    e.rowsArg = some (rowsVal rows) := by
  unfold warnInfoSection at h
  repeat' split at h
  all_goals simp_all [Event.rowsArg]

/-- Every line the format switch emits carries the row argument computed
from the statement's row count. -/
theorem mem_printSection_rowsArg {l : customLogger} {loc : String} {elapsed : Int}
    {sql : String} {rows : Int} {err : Option GoError} {slow : Bool} {e : Event}
    (h : e ∈ printSection l loc elapsed sql rows err slow) :
    e.rowsArg = some (rowsVal rows) := by
  cases err with
  | none => exact mem_warnInfoSection_rowsArg (by simpa [printSection] using h)
  | some e0 =>
    rw [printSection] at h
    split at h
    · simp_all [Event.rowsArg]
    · exact mem_warnInfoSection_rowsArg h

/-- C7: in every formatted trace line emitted by Trace, a row count of -1 is
rendered as the placeholder "-" and a row count ≥ 0 as the literal
integer. -/
theorem rows_placeholder (l : customLogger) (loc sql : String) (elapsed rows : Int)
    (err : Option GoError) :
    (∀ e ∈ l.Trace loc elapsed sql rows err, e.isPrint = true →
      e.rowsArg = some (rowsVal rows)) ∧
    (rows = -1 → rowsVal rows = RowsVal.dash) ∧
    (0 ≤ rows → rowsVal rows = RowsVal.num rows) := by
  refine ⟨?_, ?_, ?_⟩
  · intro e he hP
    rcases (mem_trace_iff l loc elapsed sql rows err e).mp he with
      (⟨-, h1⟩ | ⟨-, h1⟩ | ⟨-, h1⟩ | ⟨-, h1⟩)
    · subst h1; exact Bool.noConfusion hP
    · subst h1; exact Bool.noConfusion hP
    · subst h1; exact Bool.noConfusion hP
    · exact mem_printSection_rowsArg h1
  · intro h
    rw [rowsVal]
    simp [h]
  · intro h
    rw [rowsVal]
    have hne : ¬(rows = -1) := by omega
    simp [hne]

/-- C7 witness: the placeholder is chosen at -1 and the literal at 3. -/
theorem rows_placeholder_witness :
    rowsVal (-1) = RowsVal.dash ∧ rowsVal 3 = RowsVal.num 3 :=
  ⟨(rows_placeholder Default "L" "q" 1 (-1) none).2.1 rfl,
   (rows_placeholder Default "L" "q" 1 3 none).2.2 (by decide)⟩

/-- C5: when the level is above Silent, Trace emits at most one line, chosen
top-to-bottom, first match wins: the error branch exactly under its
condition; the slow branch — whose message is synthesized from the
formatting threshold — exactly when the error branch fails, the statement
exceeds a nonzero formatting threshold, and the level is at least Warn; the
info branch exactly when both fail and the level is exactly Info. -/
theorem line_branch_selection (l : customLogger) (loc sql : String) (elapsed rows : Int)
    (err : Option GoError) (h : lg.Silent < l.LogLevel) :
    ((l.Trace loc elapsed sql rows err).countP Event.isPrint ≤ 1) ∧
    (∀ e0 : GoError, err = some e0 →
      ((Event.printErr l.traceErrStr loc e0 elapsed (rowsVal rows) sql ∈
          l.Trace loc elapsed sql rows err) ↔
        (lg.Error ≤ l.LogLevel ∧
          (e0 ≠ GoError.recordNotFound ∨ l.IgnoreRecordNotFoundError = false)))) ∧
    ((Event.printWarn l.traceWarnStr loc l.SlowThreshold elapsed (rowsVal rows) sql ∈
        l.Trace loc elapsed sql rows err) ↔
      (errLine l err = false ∧ slowSqlOf l elapsed = true ∧ lg.Warn ≤ l.LogLevel)) ∧
    ((Event.printInfo l.traceStr loc elapsed (rowsVal rows) sql ∈
        l.Trace loc elapsed sql rows err) ↔
      (errLine l err = false ∧ ¬(slowSqlOf l elapsed = true ∧ lg.Warn ≤ l.LogLevel) ∧
        l.LogLevel = lg.Info)) := by
  have hns : ¬(l.LogLevel ≤ lg.Silent) := not_le.mpr h
  refine ⟨?_, ?_, ?_, ?_⟩
  · rw [List.countP_eq_length_filter, trace_filter_print]
    split
    · simp
    · exact printSection_length l loc elapsed sql rows err (slowSqlOf l elapsed)
  · intro e0 he
    subst he
    constructor
    · intro hmem
      rcases (mem_trace_iff l loc elapsed sql rows (some e0) _).mp hmem with
        (⟨-, h1⟩ | ⟨-, h1⟩ | ⟨-, h1⟩ | ⟨-, h1⟩)
      · exact absurd h1 (by simp)
      · exact absurd h1 (by simp)
      · exact absurd h1 (by simp)
      · exact (printErr_mem_printSection_iff l loc elapsed sql rows e0
          (slowSqlOf l elapsed)).mp h1
    · intro hc
      exact (mem_trace_iff l loc elapsed sql rows (some e0) _).mpr
        (Or.inr (Or.inr (Or.inr ⟨hns,
          (printErr_mem_printSection_iff l loc elapsed sql rows e0
            (slowSqlOf l elapsed)).mpr hc⟩)))
  · constructor
    · intro hmem
      rcases (mem_trace_iff l loc elapsed sql rows err _).mp hmem with
        (⟨-, h1⟩ | ⟨-, h1⟩ | ⟨-, h1⟩ | ⟨-, h1⟩)
      · exact absurd h1 (by simp)
      · exact absurd h1 (by simp)
      · exact absurd h1 (by simp)
      · exact (printWarn_mem_printSection_iff l loc elapsed sql rows err
          (slowSqlOf l elapsed)).mp h1
    · intro hc
      exact (mem_trace_iff l loc elapsed sql rows err _).mpr
        (Or.inr (Or.inr (Or.inr ⟨hns,
          (printWarn_mem_printSection_iff l loc elapsed sql rows err
            (slowSqlOf l elapsed)).mpr hc⟩)))
  · constructor
    · intro hmem
      rcases (mem_trace_iff l loc elapsed sql rows err _).mp hmem with
        (⟨-, h1⟩ | ⟨-, h1⟩ | ⟨-, h1⟩ | ⟨-, h1⟩)
      · exact absurd h1 (by simp)
      · exact absurd h1 (by simp)
      · exact absurd h1 (by simp)
      · exact (printInfo_mem_printSection_iff l loc elapsed sql rows err
          (slowSqlOf l elapsed)).mp h1
    · intro hc
      exact (mem_trace_iff l loc elapsed sql rows err _).mpr
        (Or.inr (Or.inr (Or.inr ⟨hns,
          (printInfo_mem_printSection_iff l loc elapsed sql rows err
            (slowSqlOf l elapsed)).mpr hc⟩)))

/-- C5 witness: the spec's slow-scenario — 200ms formatting threshold, level
Warn, elapsed 250ms, rows 3, no error — yields the warn-trace line with the
threshold in the synthesized message. -/
theorem line_branch_selection_witness :
    Event.printWarn Default.traceWarnStr "L" Default.SlowThreshold 250000000
        (rowsVal 3) "q" ∈ Default.Trace "L" 250000000 "q" 3 none :=
  ((line_branch_selection Default "L" "q" 250000000 3 none (by decide)).2.2.1).mpr
    (by decide)

/-- The threshold argument of any warn-trace line the slow/info fallthrough
emits is the logger's formatting threshold. -/
theorem printWarn_mem_warnInfoSection_threshold {l : customLogger} {loc : String}
    {elapsed : Int} {sql : String} {rows : Int} {slow : Bool}
    {tpl lo : String} {th el : Int} {r : RowsVal} {s : String}
    (h : Event.printWarn tpl lo th el r s ∈ warnInfoSection l loc elapsed sql rows slow) :
    th = l.SlowThreshold := by
  unfold warnInfoSection at h
  repeat' split at h
  all_goals simp_all

/-- The threshold argument of any warn-trace line the format switch emits is
the logger's formatting threshold. -/
theorem printWarn_mem_printSection_threshold {l : customLogger} {loc : String}
    {elapsed : Int} {sql : String} {rows : Int} {err : Option GoError} {slow : Bool}
    {tpl lo : String} {th el : Int} {r : RowsVal} {s : String}
    (h : Event.printWarn tpl lo th el r s ∈ printSection l loc elapsed sql rows err slow) :
    th = l.SlowThreshold := by
  cases err with
  | none => exact printWarn_mem_warnInfoSection_threshold (by simpa [printSection] using h)
  | some e0 =>
    rw [printSection] at h
    split at h
    · simp_all
    · exact printWarn_mem_warnInfoSection_threshold h

/-- C10: SetSlowSqlThreshold sets only Config.SlowThreshold, leaving every
other field — including the slow-trigger duration and the registered
callbacks — unchanged (restoring the old threshold recovers the receiver
exactly); subsequent Trace calls use the new threshold both in the
slow-branch condition and in the synthesized warn message. -/
theorem set_slow_threshold_frame (l : customLogger) (t : Int) :
    ((l.SetSlowSqlThreshold t).SlowThreshold = t) ∧
    ((l.SetSlowSqlThreshold t).Colorful = l.Colorful) ∧
    ((l.SetSlowSqlThreshold t).IgnoreRecordNotFoundError = l.IgnoreRecordNotFoundError) ∧
    ((l.SetSlowSqlThreshold t).LogLevel = l.LogLevel) ∧
    ((l.SetSlowSqlThreshold t).toExecution = l.toExecution) ∧
    ((l.SetSlowSqlThreshold t).infoStr = l.infoStr) ∧
    ((l.SetSlowSqlThreshold t).warnStr = l.warnStr) ∧
    ((l.SetSlowSqlThreshold t).errStr = l.errStr) ∧
    ((l.SetSlowSqlThreshold t).traceStr = l.traceStr) ∧
    ((l.SetSlowSqlThreshold t).traceErrStr = l.traceErrStr) ∧
    ((l.SetSlowSqlThreshold t).traceWarnStr = l.traceWarnStr) ∧
    ((l.SetSlowSqlThreshold t).SetSlowSqlThreshold l.SlowThreshold = l) ∧
    (∀ elapsed : Int, slowSqlOf (l.SetSlowSqlThreshold t) elapsed =
      (decide (elapsed > t) && decide (t ≠ 0))) ∧
    (∀ loc sql : String, ∀ elapsed rows : Int, ∀ err : Option GoError,
      ∀ tpl lo : String, ∀ th el : Int, ∀ r : RowsVal, ∀ s : String,
        Event.printWarn tpl lo th el r s ∈
            (l.SetSlowSqlThreshold t).Trace loc elapsed sql rows err → th = t) := by
  refine ⟨rfl, rfl, rfl, rfl, rfl, rfl, rfl, rfl, rfl, rfl, rfl, rfl,
    fun elapsed => rfl, ?_⟩
  intro loc sql elapsed rows err tpl lo th el r s hmem
  rcases (mem_trace_iff (l.SetSlowSqlThreshold t) loc elapsed sql rows err _).mp hmem with
    (⟨-, h1⟩ | ⟨-, h1⟩ | ⟨-, h1⟩ | ⟨-, h1⟩)
  · exact absurd h1 (by simp)
  · exact absurd h1 (by simp)
  · exact absurd h1 (by simp)
  · exact printWarn_mem_printSection_threshold h1

/-- C10 witness: setting the threshold to 500 on the Default logger makes
500 the formatting threshold of subsequent dispatches. -/
theorem set_slow_threshold_frame_witness :
    (Default.SetSlowSqlThreshold 500).SlowThreshold = 500 :=
  (set_slow_threshold_frame Default 500).1

end CgLogger
